import Mathlib

/-!
Verification of the web frontend module (src/blueprints/frontend.py) against its
natural-language specification.  The route handlers are embedded shallowly:
the relational store is a list of user records, the HTTP session is an
`Option` of the session snapshot, the password-hash cache is an association
list, and each handler is a pure function from its inputs and the ambient
state to an `Outcome` plus the successor state.  Debug logging (`log`,
`time.time_ns`) has no observable effect on any outcome or state and is not
modelled.
-/

namespace GulagWeb

/-- Model of the external hashlib md5 digest: an opaque deterministic
function from strings to digest values.  No collision or inversion
property of real md5 is relied upon anywhere below. -/
structure Md5 where
  val : List Nat
deriving DecidableEq, Repr

/-- Model of hashlib.md5(s.encode()).hexdigest().encode(). -/
def md5 (s : String) : Md5 :=
  ⟨s.data.map Char.toNat⟩

/-- Model of a bcrypt hash value produced by the external bcrypt library:
idealized as a salt paired with the digest it was computed from, so that
verification succeeds exactly for the digest that produced the hash. -/
structure BcryptHash where
  salt : Nat
  digest : Md5
deriving DecidableEq, Repr

/-- Model of bcrypt.hashpw(d, salt). -/
def hashpw (d : Md5) (salt : Nat) : BcryptHash :=
  ⟨salt, d⟩

/-- Model of bcrypt.checkpw(d, h): the expensive one-way verification. -/
def checkpw (d : Md5) (h : BcryptHash) : Bool :=
  d == h.digest

/-- The credential cache glob.cache['bcrypt']: a mapping from bcrypt hash to
md5 digest.  Modelled as an association list; insertion conses a binding and
lookup returns the most recent one, matching dict assignment and lookup. -/
abbrev BcryptCache : Type := List (BcryptHash × Md5)

/-- Membership / read: pw_bcrypt in bcrypt_cache, bcrypt_cache[pw_bcrypt]. -/
def cacheLookup (c : BcryptCache) (h : BcryptHash) : Option Md5 :=
  (c.find? fun p => p.1 == h).map Prod.snd

/-- Write: bcrypt_cache[pw_bcrypt] = pw_md5. -/
def cacheInsert (c : BcryptCache) (h : BcryptHash) (d : Md5) : BcryptCache :=
  (h, d) :: c

namespace Privileges

/-- Modelled from the spec: objects/privileges.py is not under src/.  Per
spec section 6, the privilege bitmask carries bit flags for Normal(-access),
Verified and Staff; the concrete bit positions of Normal and Verified are
pinned by the source's numeric moderator threshold priv < 3 (so both fit
below 3), and Staff is some disjoint higher bit, modelled here as bit 8. -/
def Normal : Nat := 1

/-- Modelled from the spec: the Verified bit of the privilege bitmask. -/
def Verified : Nat := 2

/-- Modelled from the spec: the Staff bit of the privilege bitmask. -/
def Staff : Nat := 256

end Privileges

/-- Modelled from the spec: objects/utils.py (which defines get_safe_name)
is not under src/.  The glossary defines the safe name as the normalized
form of a display name used for uniqueness comparison, and the username
rules treat a space and an underscore as the same ambiguous separator, so
normalization lowercases the name and maps each space to an underscore. -/
def get_safe_name (n : String) : String :=
  ⟨n.data.map fun c => if c = ' ' then '_' else c.toLower⟩

/-- A row of the users table, as read and written by this module. -/
structure UserRec where
  id : Nat
  name : String
  safe_name : String
  email : String
  pw_bcrypt : BcryptHash
  priv : Nat
  country : String
  silence_end : Nat
deriving DecidableEq, Repr

/-- The users table. -/
abbrev UserStore : Type := List UserRec

/-- The snapshot stored in session['user_data'] on successful login. -/
structure SessionData where
  id : Nat
  name : String
  priv : Nat
  silence_end : Nat
  is_staff : Nat
deriving DecidableEq, Repr

/-- The quart session: none models an unauthenticated session (no
'authenticated' key), some sd models an authenticated one. -/
abbrev Session : Type := Option SessionData

/-- The configuration fields this module consumes (besides debug). -/
structure Config where
  registration : Bool
  disallowed_names : List String
  disallowed_passwords : List String
deriving DecidableEq, Repr

/-- Modelled from the spec: objects/utils.py (which defines flash) is not
under src/.  Per spec section 7 a flash is a one-shot message plus redirect
to a named surface; each constructor below stands for one literal message
string of the source, cited in its doc comment. -/
inductive FlashMsg where
  /-- "Hey! You're already logged in <name>!" / "... registered and logged in <name>!" -/
  | alreadyLoggedIn (name : String)
  /-- "You must be logged in to access user settings!" -/
  | mustLogIn
  /-- "Hey! You can't register at this time! Sorry for the inconvenience!" -/
  | registrationDisabled
  /-- "Invalid username syntax." -/
  | invalidUsername
  /-- "Username may contain \x22_\x22 or \x22 \x22, but not both." -/
  | ambiguousSeparator
  /-- "Disallowed username; pick another." -/
  | disallowedName
  /-- "Username already taken by another user." -/
  | usernameTaken
  /-- "Invalid email syntax." -/
  | invalidEmail
  /-- "Email already taken by another user." -/
  | emailTaken
  /-- "Password must be 8-32 characters in length" -/
  | pwLength
  /-- "Password must have more than 3 unique characters." -/
  | pwSimple
  /-- "That password was deemed too simple." (the denylist rejection) -/
  | pwDenylisted
  /-- "Account does not exist." -/
  | accountNotFound
  /-- "Password is incorrect." -/
  | pwIncorrect
  /-- "You are banned!" -/
  | banned
  /-- "You can't logout if you aren't logged in!" -/
  | logoutNotLoggedIn
  /-- "Successfully logged out!" -/
  | logoutSuccess
  /-- "Hey! Welcome back <name>!" -/
  | welcomeBack (name : String)
deriving DecidableEq, Repr

/-- The observable result of a route handler: a rendered template with its
arguments, a flash message redirecting to a named surface, a raw byte
payload returned directly, an external redirect, or an unhandled Python
NameError escaping the handler (carrying the undefined variable's name). -/
inductive Outcome where
  | render (template : String) (args : List String)
  | flash (kind : String) (msg : FlashMsg) (target : String)
  | rawBytes (payload : String)
  | redirect (url : String)
  | nameErrorCrash (varName : String)
deriving DecidableEq, Repr

/-- True exactly on the raw byte payload outcomes. -/
def isRawPayload : Outcome → Bool
  | .rawBytes _ => true
  | _ => false

/-- Python truthiness of request.args.get(..., type=str): None (absent) and
the empty string are falsy, any other string is truthy. -/
def pyTruthy : Option String → Bool
  | none => false
  | some s => s ≠ ""

/-- The ASCII fragment of the regex class \w (word characters). -/
def isWordChar (c : Char) : Bool :=
  c.isAlpha || c.isDigit || c = '_'

/-- One character of the username regex class [\w \[\]-]. -/
def usernameClassChar (c : Char) : Bool :=
  isWordChar c || c = ' ' || c = '[' || c = ']' || c = '-'

/-- The ASCII fragment of the regex class \s (whitespace). -/
def isSpaceChar (c : Char) : Bool :=
  c = ' ' || c = '\t' || c = '\n' || c = '\r' || c = '\x0b' || c = '\x0c'

/-- Python's re anchor $ also matches just before one newline at the very
end of the subject, so a single trailing newline is stripped before the
anchored body is matched. -/
def stripTrailingNL (l : List Char) : List Char :=
  match l.reverse with
  | '\n' :: rest => rest.reverse
  | _ => l

/-- Embedding of _username_rgx.match: the anchored pattern
[\w \[\]-] repeated 2 to 15 times over the whole subject (up to one
trailing newline absorbed by the $ anchor). -/
def username_rgx_match (s : String) : Bool :=
  let t := stripTrailingNL s.data
  2 ≤ t.length && t.length ≤ 15 && t.all usernameClassChar

/-- Embedding of _email_rgx.match: local@label.tld where the local part is
1-200 non-whitespace non-at characters, the domain label 1-30 characters
excluding at, dot and whitespace, the tld 1-24 characters excluding at, dot
and whitespace.  Since neither part may contain the at sign and neither
post-at part may contain a dot, a match forces exactly one at sign and
exactly one dot after it, which the double split expresses. -/
def email_rgx_match (s : String) : Bool :=
  let t := stripTrailingNL s.data
  match t.splitOn '@' with
  | [locPart, dom] =>
    (1 ≤ locPart.length && locPart.length ≤ 200 &&
      locPart.all fun c => !isSpaceChar c) &&
    (match dom.splitOn '.' with
     | [lbl, tld] =>
       (1 ≤ lbl.length && lbl.length ≤ 30 && lbl.all fun c => !isSpaceChar c) &&
       (1 ≤ tld.length && tld.length ≤ 24 && tld.all fun c => !isSpaceChar c)
     | _ => false)
  | _ => false

/-- valid_modes (frozenset). -/
def valid_modes : List String := ["std", "taiko", "catch", "mania"]

/-- valid_mods (frozenset). -/
def valid_mods : List String := ["vn", "rx", "ap"]

/-- GET / and /home: render home.html. -/
def home : Outcome :=
  .render "home.html" []

/-- GET /settings: login-gated render of settings.html. -/
def settings (session : Session) : Outcome :=
  match session with
  | none => .flash "error" .mustLogIn "login"
  | some _ => .render "settings.html" []

/-- The effective mods value after the truthiness-guarded default: a falsy
(absent or empty) query value becomes the default vn. -/
def profileModsVal (mods : Option String) : String :=
  if pyTruthy mods then mods.getD "" else "vn"

/-- The effective mode value after the truthiness-guarded default: a falsy
(absent or empty) query value becomes the default std. -/
def profileModeVal (mode : Option String) : String :=
  if pyTruthy mode then mode.getD "" else "std"

/-- The three-clause or-chain of the profile route deciding whether the
profile is hidden (404): no row fetched, or priv below 3 and the viewer
anonymous, or priv below 3 and the authenticated viewer's session privilege
lacks the Staff bit. -/
def profile_hidden (userdata : Option UserRec) (session : Session) : Bool :=
  match userdata with
  | none => true
  | some u =>
    match session with
    | none => decide (u.priv < 3)
    | some sd => decide (u.priv < 3) && (sd.priv &&& Privileges.Staff == 0)

/-- GET /u/<user>: validate the mods and mode query values against the fixed
enumerations (truthy invalid values get a raw byte payload, falsy ones the
default), fetch the row by id, and render 404.html when hidden, otherwise
profile.html with the effective mode and mods. -/
def profile (store : UserStore) (session : Session)
    (mode mods : Option String) (uid : Nat) : Outcome :=
  if pyTruthy mods && !(valid_mods.contains (mods.getD "")) then
    .rawBytes "invalid mods! (vn, rx, ap)"
  else if pyTruthy mode && !(valid_modes.contains (mode.getD "")) then
    .rawBytes "invalid mode! (std, taiko, catch, mania)"
  else if profile_hidden (store.find? fun u => u.id == uid) session then
    .render "404.html" []
  else
    .render "profile.html" [profileModeVal mode, profileModsVal mods]

/-- GET /leaderboard: render with the default mode, sort and mods. -/
def leaderboard_nodata : Outcome :=
  .render "leaderboard.html" ["std", "pp", "vn"]

/-- GET /leaderboard/<mode>/<sort>/<mods>: render with the path values. -/
def leaderboard (mode sort mods : String) : Outcome :=
  .render "leaderboard.html" [mode, sort, mods]

/-- GET /login: render login.html unless already authenticated. -/
def login_get (session : Session) : Outcome :=
  match session with
  | some sd => .flash "error" (.alreadyLoggedIn sd.name) "home"
  | none => .render "login.html" []

/-- The result of a POST /login: the outcome, the session afterwards, the
credential cache afterwards, and whether the expensive bcrypt verification
was performed during the attempt. -/
structure LoginResult where
  outcome : Outcome
  session : Session
  cache : BcryptCache
  usedBcrypt : Bool
deriving DecidableEq, Repr

/-- The tail of login_post after the password was accepted (lines 134-164):
the verify page when the Verified bit is absent, the banned flash when the
Normal bit is absent, otherwise session establishment and the success
flash. -/
def login_success_phase (u : UserRec) (username : String)
    (cache : BcryptCache) (usedB : Bool) : LoginResult :=
  if u.priv &&& Privileges.Verified == 0 then
    ⟨.render "verify.html" [], none, cache, usedB⟩
  else if u.priv &&& Privileges.Normal == 0 then
    ⟨.flash "error" .banned "login", none, cache, usedB⟩
  else
    ⟨.flash "success" (.welcomeBack username) "home",
      some ⟨u.id, u.name, u.priv, u.silence_end, u.priv &&& Privileges.Staff⟩,
      cache, usedB⟩

/-- POST /login: reject when already authenticated; fetch the row by safe
name and fail when absent or when the row is the reserved account id 1;
then check the md5 of the submitted password against the cached digest on a
cache hit, or run the expensive bcrypt verification on a miss, populating
the cache on success; then run the verified/banned checks and establish the
session. -/
def login_post (store : UserStore) (session : Session)
    (cache : BcryptCache) (username password : String) : LoginResult :=
  match session with
  | some sd => ⟨.flash "error" (.alreadyLoggedIn sd.name) "home", session, cache, false⟩
  | none =>
    match store.find? (fun u => u.safe_name == get_safe_name username) with
    | none => ⟨.flash "error" .accountNotFound "login", none, cache, false⟩
    | some u =>
      if u.id == 1 then
        ⟨.flash "error" .accountNotFound "login", none, cache, false⟩
      else
        let pw_md5 := md5 password
        match cacheLookup cache u.pw_bcrypt with
        | some cached =>
          if pw_md5 != cached then
            ⟨.flash "error" .pwIncorrect "login", none, cache, false⟩
          else
            login_success_phase u username cache false
        | none =>
          if !checkpw pw_md5 u.pw_bcrypt then
            ⟨.flash "error" .pwIncorrect "login", none, cache, true⟩
          else
            login_success_phase u username
              (cacheInsert cache u.pw_bcrypt pw_md5) true

/-- GET /register: render register.html unless already authenticated or
registration is disabled. -/
def register_get (cfg : Config) (session : Session) : Outcome :=
  match session with
  | some sd => .flash "error" (.alreadyLoggedIn sd.name) "home"
  | none =>
    if !cfg.registration then .flash "error" .registrationDisabled "home"
    else .render "register.html" []

/-- The result of a POST /register: the outcome plus the users table, the
stats table (its id column) and the credential cache afterwards. -/
structure RegisterResult where
  outcome : Outcome
  store : UserStore
  stats : List Nat
  cache : BcryptCache
deriving DecidableEq, Repr

/-- POST /register, lines 181-234 of the source.  The guards and the
username, email and password checks are embedded in source order.  The
denylist check at line 233 reads the name pw_text, which is never bound
(the form variable is pw_txt), so reaching that line raises NameError in
Python; every request that passes the length and distinctness checks
therefore escapes with that error, and the write phase at lines 236-270
(hash, cache seed, geolocation, users insert, stats insert, verify render)
is unreachable and performs no write on any input. -/
def register_post (cfg : Config) (session : Session)
    (store : UserStore) (stats : List Nat) (cache : BcryptCache)
    (username email pw_txt : String) : RegisterResult :=
  match session with
  | some sd =>
    ⟨.flash "error" (.alreadyLoggedIn sd.name) "home", store, stats, cache⟩
  | none =>
    if !cfg.registration then
      ⟨.flash "error" .registrationDisabled "home", store, stats, cache⟩
    else if !username_rgx_match username then
      ⟨.flash "error" .invalidUsername "register", store, stats, cache⟩
    else if username.data.contains '_' && username.data.contains ' ' then
      ⟨.flash "error" .ambiguousSeparator "register", store, stats, cache⟩
    else if cfg.disallowed_names.contains username then
      ⟨.flash "error" .disallowedName "register", store, stats, cache⟩
    else if store.any (fun u => u.name == username) then
      ⟨.flash "error" .usernameTaken "register", store, stats, cache⟩
    else if !email_rgx_match email then
      ⟨.flash "error" .invalidEmail "register", store, stats, cache⟩
    else if store.any (fun u => u.email == email) then
      ⟨.flash "error" .emailTaken "register", store, stats, cache⟩
    else if !(8 < pw_txt.length && pw_txt.length ≤ 32) then
      ⟨.flash "error" .pwLength "register", store, stats, cache⟩
    else if pw_txt.data.dedup.length ≤ 3 then
      ⟨.flash "error" .pwSimple "register", store, stats, cache⟩
    else
      ⟨.nameErrorCrash "pw_text", store, stats, cache⟩

/-- GET /logout: clear the session fields and flash, or complain when not
logged in.  Returns the outcome and the session afterwards. -/
def logout (session : Session) : Outcome × Session :=
  match session with
  | none => (.flash "error" .logoutNotLoggedIn "login", none)
  | some _ => (.flash "success" .logoutSuccess "login", none)

/-- GET /docs: render docs.html. -/
def docs_nodata : Outcome :=
  .render "docs.html" []

/-- GET /doc/<doc>: render the converted markdown (the file read and the
markdown conversion are external; the converted text is a parameter). -/
def docs (doc : String) (markdownText : String) : Outcome :=
  .render "doc.html" [markdownText, (doc.toLower).capitalize]

/-- GET /discord: external redirect to the configured URL. -/
def discord (url : String) : Outcome :=
  .redirect url

/-- Safe names are pairwise distinct across the store. -/
abbrev distinctSafeNames (store : UserStore) : Prop :=
  store.Pairwise fun a b => a.safe_name ≠ b.safe_name

/-- Emails are pairwise distinct across the store. -/
abbrev distinctEmails (store : UserStore) : Prop :=
  store.Pairwise fun a b => a.email ≠ b.email

/-- Every binding of the credential cache maps a hash to a digest that the
expensive verification accepts. -/
abbrev cacheWF (c : BcryptCache) : Prop :=
  ∀ p ∈ c, checkpw p.2 p.1 = true

/-- A sample verified, unbanned account used by concrete witnesses. -/
def aliceRec : UserRec :=
  ⟨2, "Alice", "alice", "a@b.co", hashpw (md5 "hunter2aa") 0, 3, "xx", 0⟩

/-- A sample account whose privilege is below the moderator threshold. -/
def bannedRec : UserRec :=
  ⟨5, "Mallory", "mallory", "m@b.co", hashpw (md5 "secretxyz") 1, 0, "xx", 0⟩

/-- Looking up the key just inserted returns the inserted digest. -/
theorem cacheLookup_cacheInsert (c : BcryptCache) (h : BcryptHash) (d : Md5) :
    cacheLookup (cacheInsert c h d) h = some d := by
  simp [cacheLookup, cacheInsert, List.find?]

/-- Inserting a verifying binding preserves cache well-formedness. -/
theorem cacheWF_cacheInsert {c : BcryptCache} {h : BcryptHash} {d : Md5}
    (hc : cacheWF c) (hd : checkpw d h = true) : cacheWF (cacheInsert c h d) := by
  intro p hp
  rcases List.mem_cons.mp hp with h1 | h2
  · subst h1; exact hd
  · exact hc p h2

/-- The tail phase of login_post never touches the cache. -/
theorem login_success_phase_cache (u : UserRec) (n : String)
    (c : BcryptCache) (b : Bool) : (login_success_phase u n c b).cache = c := by
  unfold login_success_phase
  split_ifs <;> rfl

/-- Every branch of register_post returns the users table, the stats table
and the credential cache unchanged: the early checks return before any
write, and the write phase sits behind the NameError raised at line 233, so
it is unreachable. -/
theorem register_post_state_eq (cfg : Config) (session : Session)
    (store : UserStore) (stats : List Nat) (cache : BcryptCache)
    (username email pw_txt : String) :
    (register_post cfg session store stats cache username email pw_txt).store = store ∧
    (register_post cfg session store stats cache username email pw_txt).stats = stats ∧
    (register_post cfg session store stats cache username email pw_txt).cache = cache := by
  cases session with
  | some sd => exact ⟨rfl, rfl, rfl⟩
  | none =>
    simp only [register_post]
    split_ifs <;> exact ⟨rfl, rfl, rfl⟩

/-- C1: the claim says register_post checks the lowercased password against
the configured disallowed-passwords list and fails with the Denylisted
flash exactly when the lowercased password is in that list.  The code
instead raises NameError for every password reaching that check, because
line 233 reads the never-bound name pw_text instead of pw_txt: both a
denylisted password (PassWord123 with password123 configured) and a
clearly non-denylisted one escape with the NameError, with no database
write and no cache write in either case. -/
theorem register_denylist_check_raises :
    register_post ⟨true, [], ["password123"]⟩ none [] [] []
        "NewUser" "new@user.com" "PassWord123"
      = ⟨.nameErrorCrash "pw_text", [], [], []⟩ ∧
    register_post ⟨true, [], ["password123"]⟩ none [] [] []
        "NewUser" "new@user.com" "Uncommon4PW"
      = ⟨.nameErrorCrash "pw_text", [], [], []⟩ := by
  exact ⟨by decide, by decide⟩

/-- C4: when the lookup by normalized name finds no record, or finds the
reserved account with id 1, login_post flashes the account-does-not-exist
error redirecting to login, the session stays unauthenticated, and the
cache is untouched. -/
theorem login_account_not_found (store : UserStore) (cache : BcryptCache)
    (username password : String)
    (h : store.find? (fun v => v.safe_name == get_safe_name username) = none ∨
         ∃ u, store.find? (fun v => v.safe_name == get_safe_name username) = some u ∧
           u.id = 1) :
    (login_post store none cache username password).outcome
      = .flash "error" .accountNotFound "login" ∧
    (login_post store none cache username password).session = none ∧
    (login_post store none cache username password).cache = cache := by
  rcases h with h | ⟨u, hu, hid⟩
  · simp [login_post, h]
  · simp [login_post, hu, hid]

/-- C4 witness: the empty store at a concrete attempt. -/
theorem login_account_not_found_witness :
    (login_post [] none [] "Ghost" "letmein12").outcome
      = .flash "error" .accountNotFound "login" ∧
    (login_post [] none [] "Ghost" "letmein12").session = none ∧
    (login_post [] none [] "Ghost" "letmein12").cache = [] :=
  login_account_not_found [] [] "Ghost" "letmein12" (Or.inl (by decide))

/-- C5 counterexample: the username a_ spc ! contains both a space and an
underscore, yet register_post fails it with the invalid-syntax flash, not
the ambiguous-separator one, because the syntax regex check at line 202
runs first and the exclamation mark is outside the character class.  This
refutes the claim that the AmbiguousSeparator failure is produced
regardless of any other property of the name. -/
theorem ambiguous_separator_shadowed :
    ("a_ !".data.contains '_' && "a_ !".data.contains ' ') = true ∧
    (register_post ⟨true, [], []⟩ none [] [] [] "a_ !" "new@user.com"
        "PassWord123").outcome
      = .flash "error" .invalidUsername "register" := by
  decide

/-- C5 amended: for every username containing both a space and an
underscore that also matches the syntax regex (with the guards passed:
unauthenticated session, registration enabled), register_post fails with
the ambiguous-separator flash redirecting to register, regardless of the
configured denylist, the store contents, and the other form fields. -/
theorem ambiguous_separator_after_regex (cfg : Config) (store : UserStore)
    (stats : List Nat) (cache : BcryptCache) (username email pw : String)
    (hreg : cfg.registration = true)
    (hsyn : username_rgx_match username = true)
    (hu : username.data.contains '_' = true)
    (hs : username.data.contains ' ' = true) :
    (register_post cfg none store stats cache username email pw).outcome
      = .flash "error" .ambiguousSeparator "register" := by
  have hu' : '_' ∈ username.data := by simpa using hu
  have hs' : ' ' ∈ username.data := by simpa using hs
  simp [register_post, hreg, hsyn, hu', hs']

/-- C5 amended witness: the username a_ b at a concrete request. -/
theorem ambiguous_separator_after_regex_witness :
    (register_post ⟨true, ["a_ b"], []⟩ none [aliceRec] [] [] "a_ b"
        "new@user.com" "PassWord123").outcome
      = .flash "error" .ambiguousSeparator "register" :=
  ambiguous_separator_after_regex ⟨true, ["a_ b"], []⟩ [aliceRec] [] []
    "a_ b" "new@user.com" "PassWord123" (by decide) (by decide) (by decide)
    (by decide)

/-- C6: the boundary behavior of the password checks holds on the code (a
length-8 password fails the length check, a length-32 one passes it, a
3-distinct-character password fails the distinctness check, a 4-distinct
one passes it), but the claim that a password of valid length, more than 3
distinct characters and non-denylisted lowercase makes register_post
proceed past all three password checks is broken by the code: every
password that passes the first two checks escapes with the NameError from
the undefined pw_text at the denylist check (the denylist is empty here,
so nothing should be rejected by it), instead of proceeding. -/
theorem password_validation_boundaries :
    (register_post ⟨true, [], []⟩ none [] [] [] "Tester" "t@example.com"
        "abcdefgh").outcome = .flash "error" .pwLength "register" ∧
    (register_post ⟨true, [], []⟩ none [] [] [] "Tester" "t@example.com"
        "abcdefghijklmnopqrstuvwxyz012345").outcome
      = .nameErrorCrash "pw_text" ∧
    (register_post ⟨true, [], []⟩ none [] [] [] "Tester" "t@example.com"
        "abcdefghijklmnopqrstuvwxyz0123456").outcome
      = .flash "error" .pwLength "register" ∧
    (register_post ⟨true, [], []⟩ none [] [] [] "Tester" "t@example.com"
        "aabbccaabbcc").outcome = .flash "error" .pwSimple "register" ∧
    (register_post ⟨true, [], []⟩ none [] [] [] "Tester" "t@example.com"
        "aabbccddaabb").outcome = .nameErrorCrash "pw_text" ∧
    (register_post ⟨true, [], []⟩ none [] [] [] "Tester" "t@example.com"
        "Str0ngPW!x").outcome = .nameErrorCrash "pw_text" := by
  refine ⟨by decide, by decide, by decide, by decide, by decide, by decide⟩

/-- C7: with the guards and the username checks passed, a registration
whose display name is already taken fails with the username-taken flash,
and one whose username is fresh but whose email (with valid syntax) is
already taken fails with the email-taken flash; in both cases the users
table, the stats table and the credential cache come back unchanged, so no
row and no cache binding is created. -/
theorem register_taken_no_write (cfg : Config) (store : UserStore)
    (stats : List Nat) (cache : BcryptCache) (username email pw : String)
    (hreg : cfg.registration = true)
    (hsyn : username_rgx_match username = true)
    (hsep : (username.data.contains '_' && username.data.contains ' ') = false)
    (hdis : cfg.disallowed_names.contains username = false) :
    (store.any (fun u => u.name == username) = true →
       register_post cfg none store stats cache username email pw
         = ⟨.flash "error" .usernameTaken "register", store, stats, cache⟩) ∧
    (store.any (fun u => u.name == username) = false →
       email_rgx_match email = true →
       store.any (fun u => u.email == email) = true →
       register_post cfg none store stats cache username email pw
         = ⟨.flash "error" .emailTaken "register", store, stats, cache⟩) := by
  have hsep' := hsep
  have hdis' := hdis
  simp at hsep' hdis'
  constructor
  · intro hname
    have hname' := hname
    simp at hname'
    by_cases hin : '_' ∈ username.data
    · simp [register_post, hreg, hsyn, hdis', hin, hsep' hin, hname']
    · simp [register_post, hreg, hsyn, hdis', hin, hname']
  · intro hname hemail htaken
    have hname' := hname
    have htaken' := htaken
    simp at hname' htaken'
    by_cases hin : '_' ∈ username.data
    · simp [register_post, hreg, hsyn, hdis', hin, hsep' hin, hname', hemail,
        htaken']
      exact hname'
    · simp [register_post, hreg, hsyn, hdis', hin, hname', hemail, htaken']
      exact hname'

/-- C7 witness: the store holding Alice, once for a duplicate display name
and once for a duplicate email. -/
theorem register_taken_no_write_witness :
    register_post ⟨true, [], []⟩ none [aliceRec] [] [] "Alice" "x@y.zz"
        "PassWord123"
      = ⟨.flash "error" .usernameTaken "register", [aliceRec], [], []⟩ ∧
    register_post ⟨true, [], []⟩ none [aliceRec] [] [] "Bobby" "a@b.co"
        "PassWord123"
      = ⟨.flash "error" .emailTaken "register", [aliceRec], [], []⟩ :=
  ⟨(register_taken_no_write ⟨true, [], []⟩ [aliceRec] [] [] "Alice" "x@y.zz"
      "PassWord123" (by decide) (by decide) (by decide) (by decide)).1
      (by decide),
   (register_taken_no_write ⟨true, [], []⟩ [aliceRec] [] [] "Bobby" "a@b.co"
      "PassWord123" (by decide) (by decide) (by decide) (by decide)).2
      (by decide) (by decide) (by decide)⟩

/-- C3: pairwise distinctness of safe names and of emails across the users
table is preserved by every run of register_post.  On this code the
property holds because no run of register_post writes the table at all:
each failing check returns before the insert, and every request passing
the checks raises the NameError at line 233, before the write phase, so
the table always comes back unchanged (register_post_state_eq); in
particular no second record with an existing record's safe name is ever
created. -/
theorem register_preserves_uniqueness (cfg : Config) (session : Session)
    (store : UserStore) (stats : List Nat) (cache : BcryptCache)
    (username email pw : String)
    (hsafe : distinctSafeNames store) (hemail : distinctEmails store) :
    distinctSafeNames
        (register_post cfg session store stats cache username email pw).store ∧
    distinctEmails
        (register_post cfg session store stats cache username email pw).store := by
  rw [(register_post_state_eq cfg session store stats cache username email pw).1]
  exact ⟨hsafe, hemail⟩

/-- C3 witness: a two-record store and a registration whose username
normalizes to Alice's safe name while the display names differ. -/
theorem register_preserves_uniqueness_witness :
    distinctSafeNames
        (register_post ⟨true, [], []⟩ none [aliceRec, bannedRec] [] []
          "ALICE" "al@b.cd" "PassWord123").store ∧
    distinctEmails
        (register_post ⟨true, [], []⟩ none [aliceRec, bannedRec] [] []
          "ALICE" "al@b.cd" "PassWord123").store :=
  register_preserves_uniqueness ⟨true, [], []⟩ none [aliceRec, bannedRec]
    [] [] "ALICE" "al@b.cd" "PassWord123" (by decide) (by decide)

/-- C2: with the account found by safe name (and not the reserved id), the
hash absent from the cache, a password whose digest the expensive
verification accepts, and the Verified and Normal bits set, the first
login succeeds through the bcrypt path and stores the digest under the
hash; the second login with the same password then finds the digest in
the cache, performs no bcrypt verification, and returns the same success
outcome, session and cache as the first; moreover, for any probe password,
the cache-hit digest comparison against the stored digest accepts exactly
when the expensive verification of the probe digest would accept. -/
theorem login_cache_refines_bcrypt (store : UserStore) (cache : BcryptCache)
    (username password probe : String) (u : UserRec)
    (hfind : store.find? (fun v => v.safe_name == get_safe_name username)
      = some u)
    (hid : u.id ≠ 1)
    (hmiss : cacheLookup cache u.pw_bcrypt = none)
    (hpw : checkpw (md5 password) u.pw_bcrypt = true)
    (hver : u.priv &&& Privileges.Verified ≠ 0)
    (hnorm : u.priv &&& Privileges.Normal ≠ 0) :
    (login_post store none cache username password).outcome
      = .flash "success" (.welcomeBack username) "home" ∧
    (login_post store none cache username password).usedBcrypt = true ∧
    cacheLookup (login_post store none cache username password).cache
        u.pw_bcrypt
      = some (md5 password) ∧
    (login_post store none (login_post store none cache username password).cache
        username password).usedBcrypt = false ∧
    (login_post store none (login_post store none cache username password).cache
        username password).outcome
      = (login_post store none cache username password).outcome ∧
    (login_post store none (login_post store none cache username password).cache
        username password).cache
      = (login_post store none cache username password).cache ∧
    (login_post store none (login_post store none cache username password).cache
        username password).session
      = (login_post store none cache username password).session ∧
    (md5 probe == md5 password) = checkpw (md5 probe) u.pw_bcrypt := by
  have e1 : login_post store none cache username password
      = ⟨.flash "success" (.welcomeBack username) "home",
          some ⟨u.id, u.name, u.priv, u.silence_end,
            u.priv &&& Privileges.Staff⟩,
          cacheInsert cache u.pw_bcrypt (md5 password), true⟩ := by
    simp [login_post, hfind, hid, hmiss, hpw, login_success_phase, hver, hnorm]
  have hhit : cacheLookup (cacheInsert cache u.pw_bcrypt (md5 password))
      u.pw_bcrypt = some (md5 password) :=
    cacheLookup_cacheInsert cache u.pw_bcrypt (md5 password)
  have e2 : login_post store none
      (cacheInsert cache u.pw_bcrypt (md5 password)) username password
      = ⟨.flash "success" (.welcomeBack username) "home",
          some ⟨u.id, u.name, u.priv, u.silence_end,
            u.priv &&& Privileges.Staff⟩,
          cacheInsert cache u.pw_bcrypt (md5 password), false⟩ := by
    simp [login_post, hfind, hid, hhit, login_success_phase, hver, hnorm]
  have hdig : md5 password = u.pw_bcrypt.digest := by
    simpa [checkpw] using hpw
  refine ⟨by rw [e1], by rw [e1], by rw [e1]; exact hhit, ?_, ?_, ?_, ?_, ?_⟩
  · rw [e1]; rw [e2]
  · rw [e1]; rw [e2]
  · rw [e1]; rw [e2]
  · rw [e1]; rw [e2]
  · simp [checkpw, hdig]

/-- C2 witness: Alice logging in twice with the correct password; the
probe for the digest-comparison equivalence is a wrong password. -/
theorem login_cache_refines_bcrypt_witness :
    (login_post [aliceRec] none [] "Alice" "hunter2aa").usedBcrypt = true ∧
    (login_post [aliceRec] none
        (login_post [aliceRec] none [] "Alice" "hunter2aa").cache
        "Alice" "hunter2aa").usedBcrypt = false ∧
    (login_post [aliceRec] none
        (login_post [aliceRec] none [] "Alice" "hunter2aa").cache
        "Alice" "hunter2aa").outcome
      = (login_post [aliceRec] none [] "Alice" "hunter2aa").outcome ∧
    (md5 "wrongpass1" == md5 "hunter2aa")
      = checkpw (md5 "wrongpass1") aliceRec.pw_bcrypt :=
  ⟨(login_cache_refines_bcrypt [aliceRec] [] "Alice" "hunter2aa" "wrongpass1"
      aliceRec (by decide) (by decide) (by decide) (by decide) (by decide)
      (by decide)).2.1,
   (login_cache_refines_bcrypt [aliceRec] [] "Alice" "hunter2aa" "wrongpass1"
      aliceRec (by decide) (by decide) (by decide) (by decide) (by decide)
      (by decide)).2.2.2.1,
   (login_cache_refines_bcrypt [aliceRec] [] "Alice" "hunter2aa" "wrongpass1"
      aliceRec (by decide) (by decide) (by decide) (by decide) (by decide)
      (by decide)).2.2.2.2.1,
   (login_cache_refines_bcrypt [aliceRec] [] "Alice" "hunter2aa" "wrongpass1"
      aliceRec (by decide) (by decide) (by decide) (by decide) (by decide)
      (by decide)).2.2.2.2.2.2.2⟩

/-- C8: with the mode and mods query values valid or defaulted, a profile
request for a missing row renders the not-found page for every viewer, and
one for a row whose privilege is below the moderator threshold 3 renders
the not-found page for an anonymous viewer and for an authenticated viewer
whose session privilege lacks the Staff bit, but renders the profile page
for an authenticated viewer whose session privilege has the Staff bit. -/
theorem profile_visibility (store : UserStore) (uid : Nat)
    (mode mods : Option String) (sd : SessionData)
    (hmods : pyTruthy mods = false ∨ valid_mods.contains (mods.getD "") = true)
    (hmode : pyTruthy mode = false ∨ valid_modes.contains (mode.getD "") = true) :
    ((store.find? fun u => u.id == uid) = none →
       ∀ session : Session,
         profile store session mode mods uid = .render "404.html" []) ∧
    (∀ u : UserRec, (store.find? fun v => v.id == uid) = some u →
       u.priv < 3 →
       profile store none mode mods uid = .render "404.html" [] ∧
       (sd.priv &&& Privileges.Staff = 0 →
          profile store (some sd) mode mods uid = .render "404.html" []) ∧
       (sd.priv &&& Privileges.Staff ≠ 0 →
          profile store (some sd) mode mods uid
            = .render "profile.html" [profileModeVal mode, profileModsVal mods])) := by
  have g1 : ¬(pyTruthy mods = true ∧ mods.getD "" ∉ valid_mods) := by
    rcases hmods with h | h
    · simp [h]
    · intro hc
      exact hc.2 (by simpa using h)
  have g2 : ¬(pyTruthy mode = true ∧ mode.getD "" ∉ valid_modes) := by
    rcases hmode with h | h
    · simp [h]
    · intro hc
      exact hc.2 (by simpa using h)
  refine ⟨?_, ?_⟩
  · intro hnone session
    simp [profile, g1, g2, profile_hidden, hnone]
  · intro u hu hlt
    refine ⟨?_, ?_, ?_⟩
    · simp [profile, g1, g2, profile_hidden, hu, hlt]
    · intro hstaff
      simp [profile, g1, g2, profile_hidden, hu, hlt, hstaff]
    · intro hstaff
      simp [profile, g1, g2, profile_hidden, hu, hlt, hstaff]

/-- C8 witness: the banned record viewed anonymously, by a non-staff
session, and by a staff session, plus a missing account id. -/
theorem profile_visibility_witness :
    profile [bannedRec] none none none 5 = .render "404.html" [] ∧
    profile [bannedRec] (some ⟨2, "Alice", 3, 0, 0⟩) none none 5
      = .render "404.html" [] ∧
    profile [bannedRec] (some ⟨9, "Mod", 259, 0, 256⟩) none none 5
      = .render "profile.html" ["std", "vn"] ∧
    profile [bannedRec] none none none 77 = .render "404.html" [] :=
  ⟨((profile_visibility [bannedRec] 5 none none ⟨2, "Alice", 3, 0, 0⟩
      (Or.inl (by decide)) (Or.inl (by decide))).2 bannedRec (by decide)
      (by decide)).1,
   ((profile_visibility [bannedRec] 5 none none ⟨2, "Alice", 3, 0, 0⟩
      (Or.inl (by decide)) (Or.inl (by decide))).2 bannedRec (by decide)
      (by decide)).2.1 (by decide),
   ((profile_visibility [bannedRec] 5 none none ⟨9, "Mod", 259, 0, 256⟩
      (Or.inl (by decide)) (Or.inl (by decide))).2 bannedRec (by decide)
      (by decide)).2.2 (by decide),
   (profile_visibility [bannedRec] 77 none none ⟨2, "Alice", 3, 0, 0⟩
      (Or.inl (by decide)) (Or.inl (by decide))).1 (by decide) none⟩

/-- The login tail phase never returns a raw byte payload. -/
theorem login_success_phase_not_raw (u : UserRec) (n : String)
    (c : BcryptCache) (b : Bool) :
    isRawPayload (login_success_phase u n c b).outcome = false := by
  unfold login_success_phase
  split_ifs <;> rfl

/-- C9 counterexample: the mods query value is the empty string, which is
present and outside the valid set, yet the profile route does not return a
raw bad-request payload: the empty string is falsy, so the code silently
substitutes the default vn and renders the profile. -/
theorem profile_empty_mods_not_raw :
    valid_mods.contains "" = false ∧
    profile [aliceRec] none none (some "") 2
      = .render "profile.html" ["std", "vn"] ∧
    isRawPayload (profile [aliceRec] none none (some "") 2) = false := by
  decide

/-- C9 amended: the profile route returns a raw bad-request payload exactly
when the mods query value is truthy (present and non-empty) and outside
the valid mods set, or the mode query value is truthy and outside the
valid modes set; and no other route handler ever returns a raw payload:
every other user-facing failure is a flash redirect (or, for register_post
past the password checks, the NameError escape). -/
theorem raw_payload_only_profile :
    (∀ (store : UserStore) (session : Session) (mode mods : Option String)
        (uid : Nat),
       isRawPayload (profile store session mode mods uid)
         = ((pyTruthy mods && !valid_mods.contains (mods.getD ""))
            || (pyTruthy mode && !valid_modes.contains (mode.getD "")))) ∧
    isRawPayload home = false ∧
    (∀ s : Session, isRawPayload (settings s) = false) ∧
    isRawPayload leaderboard_nodata = false ∧
    (∀ m so mo : String, isRawPayload (leaderboard m so mo) = false) ∧
    (∀ s : Session, isRawPayload (login_get s) = false) ∧
    (∀ (st : UserStore) (s : Session) (c : BcryptCache) (u p : String),
       isRawPayload (login_post st s c u p).outcome = false) ∧
    (∀ (cfg : Config) (s : Session),
       isRawPayload (register_get cfg s) = false) ∧
    (∀ (cfg : Config) (s : Session) (st : UserStore) (sa : List Nat)
        (c : BcryptCache) (u e p : String),
       isRawPayload (register_post cfg s st sa c u e p).outcome = false) ∧
    (∀ s : Session, isRawPayload (logout s).1 = false) ∧
    isRawPayload docs_nodata = false ∧
    (∀ d m : String, isRawPayload (docs d m) = false) ∧
    (∀ u : String, isRawPayload (discord u) = false) := by
  refine ⟨?_, rfl, ?_, rfl, fun m so mo => rfl, ?_, ?_, ?_, ?_, ?_, rfl,
    fun d m => rfl, fun u => rfl⟩
  · intro store session mode mods uid
    simp only [profile]
    split_ifs with h1 h2 h3
    · rw [h1]
      rfl
    · simp only [Bool.not_eq_true] at h1
      rw [h1, h2]
      rfl
    · simp only [Bool.not_eq_true] at h1 h2
      rw [h1, h2]
      rfl
    · simp only [Bool.not_eq_true] at h1 h2
      rw [h1, h2]
      rfl
  · intro s
    cases s <;> rfl
  · intro s
    cases s <;> rfl
  · intro st s c u p
    cases s with
    | some sd => rfl
    | none =>
      simp only [login_post]
      split
      · rfl
      · split
        · rfl
        · split
          · split
            · rfl
            · exact login_success_phase_not_raw _ _ _ _
          · split
            · rfl
            · exact login_success_phase_not_raw _ _ _ _
  · intro cfg s
    cases s with
    | some sd => rfl
    | none =>
      simp only [register_get]
      split_ifs <;> rfl
  · intro cfg s st sa c u e p
    cases s with
    | some sd => rfl
    | none =>
      simp only [register_post]
      split_ifs <;> rfl
  · intro s
    cases s <;> rfl

/-- C10: if every binding of the credential cache already maps its hash to
a digest accepted by the expensive verification, then the cache after any
run of login_post and the cache after any run of register_post still have
that property: login_post only inserts a binding in the branch where the
expensive verification just accepted it, and register_post never reaches
its cache write (the NameError at line 233 precedes it), so both preserve
well-formedness. -/
theorem cache_wellformed_preserved (cfg : Config) (s1 s2 : Session)
    (store1 store2 : UserStore) (stats : List Nat) (cache : BcryptCache)
    (luser lpass ruser email rpw : String)
    (hwf : cacheWF cache) :
    cacheWF (login_post store1 s1 cache luser lpass).cache ∧
    cacheWF (register_post cfg s2 store2 stats cache ruser email rpw).cache := by
  constructor
  · cases s1 with
    | some sd => exact hwf
    | none =>
      simp only [login_post]
      split
      · exact hwf
      · split
        · exact hwf
        · split
          · split
            · exact hwf
            · rw [login_success_phase_cache]
              exact hwf
          · split
            · exact hwf
            · rw [login_success_phase_cache]
              refine cacheWF_cacheInsert hwf ?_
              rename_i hok
              simpa using hok
  · rw [(register_post_state_eq cfg s2 store2 stats cache ruser email rpw).2.2]
    exact hwf

/-- C10 witness: the empty cache through a successful first login of Alice
and through a registration attempt. -/
theorem cache_wellformed_preserved_witness :
    cacheWF (login_post [aliceRec] none [] "Alice" "hunter2aa").cache ∧
    cacheWF (register_post ⟨true, [], []⟩ none [aliceRec] [] [] "NewUser"
        "new@user.com" "PassWord123").cache :=
  cache_wellformed_preserved ⟨true, [], []⟩ none none [aliceRec] [aliceRec]
    [] [] "Alice" "hunter2aa" "NewUser" "new@user.com" "PassWord123"
    (by decide)

end GulagWeb
